import Mathlib

/-!
Shallow embedding of the SOCKS5 server of `src/server.rs` (fast-socks5).

The per-connection protocol engine is modelled as pure functions over the
list of bytes sent by the client; every write the server performs is
collected, in order, as an element of a `List (List Nat)` (one element per
call to `write`).  External effects (DNS lookup, the outbound TCP connect,
the relay copy outcomes) are supplied by a `World` oracle.  Machine bytes
are `Nat`s; the code never does byte arithmetic that can overflow.
-/

set_option maxRecDepth 4096

namespace FastSocks

/-- Constants from `consts` (values fixed by RFC 1928 and used literally in
`server.rs`). -/
def SOCKS5_VERSION : Nat := 5

def SOCKS5_AUTH_METHOD_NONE : Nat := 0

def SOCKS5_AUTH_METHOD_PASSWORD : Nat := 2

def SOCKS5_AUTH_METHOD_NOT_ACCEPTABLE : Nat := 0xFF

def SOCKS5_CMD_TCP_CONNECT : Nat := 1

def SOCKS5_REPLY_SUCCEEDED : Nat := 0

/-- An IP address: 4 bytes for v4, 16 bytes for v6. -/
inductive IpAddr
  | v4 (a b c d : Nat)
  | v6 (bytes : List Nat)
  deriving DecidableEq

/-- A resolved socket address (IP and port). -/
structure SocketAddr where
  ip : IpAddr
  port : Nat
  deriving DecidableEq

/-- `TargetAddr` from `src/util/target_addr.rs` (declared outside the
provided sources; its shape is fixed by the spec data model): either an IP
with a port, or a domain name (a UTF-8 string, kept here as its byte list)
with a port. -/
inductive TargetAddr
  | ip (addr : IpAddr) (port : Nat)
  | domain (name : List Nat) (port : Nat)
  deriving DecidableEq

/-- Modelled from the spec: `ReplyError` is declared in `src/lib.rs`, which
is not among the provided sources; its variants and byte codes are those of
spec section 6 (RFC 1928 reply codes). -/
inductive ReplyError
  | succeeded
  | generalFailure
  | connectionNotAllowed
  | networkUnreachable
  | hostUnreachable
  | connectionRefused
  | ttlExpired
  | commandNotSupported
  | addressTypeNotSupported
  deriving DecidableEq

/-- Modelled from the spec: the reply byte codes of spec section 6. -/
def ReplyError.as_u8 : ReplyError → Nat
  | .succeeded => 0x00
  | .generalFailure => 0x01
  | .connectionNotAllowed => 0x02
  | .networkUnreachable => 0x03
  | .hostUnreachable => 0x04
  | .connectionRefused => 0x05
  | .ttlExpired => 0x06
  | .commandNotSupported => 0x07
  | .addressTypeNotSupported => 0x08

/-- The kinds of I/O error distinguished by `execute_command` in
`server.rs` (lines 499 to 505), plus a few kinds that fall into its
wildcard arm. -/
inductive IOErrorKind
  | connectionRefused
  | connectionAborted
  | connectionReset
  | notConnected
  | permissionDenied
  | timedOut
  | unexpectedEof
  | otherKind
  deriving DecidableEq

/-- Modelled from the spec: `SocksError` is declared in `src/lib.rs`, which
is not among the provided sources.  Spec section 7 gives the two error
families: `ReplyError` (wrapped, reaching the wire) and the
framing/transport kinds `UnsupportedSocksVersion`, `AuthMethodUnacceptable`,
`AuthenticationFailed`, `AuthenticationRejected`, `Io(underlying)`.
Rust-side conversions via the question-mark operator are modelled by the
matching variant: an `io::Error` becomes `ioError`, a UTF-8 decode failure
of credentials becomes `authenticationFailed` (spec sections 4.4 and 7:
malformed credentials), and other anyhow-contexted errors become
`otherError`. -/
inductive SocksError
  | replyError (e : ReplyError)
  | unsupportedSocksVersion (v : Nat)
  | authMethodUnacceptable (methods : List Nat)
  | authenticationFailed (msg : String)
  | authenticationRejected (msg : String)
  | ioError (k : IOErrorKind)
  | otherError (msg : String)
  deriving DecidableEq

/-- `AuthenticationMethod` from `src/lib.rs` (missing from the provided
sources; shape fixed by the spec data model): `None`, `Password`, or
`Unacceptable`. -/
inductive AuthenticationMethod
  | noneAuth
  | password (username password : List Nat)
  | unacceptable
  deriving DecidableEq

/-- Outcome of `future::timeout(request_timeout, TcpStream::connect(addr))`
in `execute_command` (server.rs lines 491 to 510). -/
inductive ConnectOutcome
  | success
  | ioError (k : IOErrorKind)
  | timeout
  deriving DecidableEq

/-- Outcome of one `futures::io::copy` direction inside `transfer`. -/
inductive CopyOutcome
  | done (bytes : Nat)
  | ioError (k : IOErrorKind)
  deriving DecidableEq

/-- Which copy direction of `transfer` finishes first, and how
(`futures::future::select`, server.rs line 568). -/
inductive SelectOutcome
  | left (o : CopyOutcome)
  | right (o : CopyOutcome)
  deriving DecidableEq

/-- The oracle for effects outside the client byte stream: DNS resolution
of a domain, `to_socket_addrs` enumeration, the outbound connect outcome
(given the configured timeout), the relay select outcome, and the local
address of the outbound socket (which the code never reads). -/
structure World where
  dns : List Nat → Nat → Option SocketAddr
  toSockAddrs : TargetAddr → Except IOErrorKind (List SocketAddr)
  connect : Nat → SocketAddr → ConnectOutcome
  transferSel : SelectOutcome
  localAddr : SocketAddr

/-- `Config` from server.rs lines 21 to 32. -/
structure Config where
  request_timeout : Nat
  skip_auth : Bool
  dns_resolve : Bool
  execute_command : Bool
  auth : Option (List Nat → List Nat → Bool)

/-- `SimpleUserPassword` from server.rs lines 52 to 55; the Rust `String`
fields are kept as their UTF-8 byte lists. -/
structure SimpleUserPassword where
  username : List Nat
  password : List Nat

/-- `SimpleUserPassword::authenticate` (server.rs lines 57 to 61):
equality against the configured pair. -/
def SimpleUserPassword.authenticate (s : SimpleUserPassword)
    (username password : List Nat) : Bool :=
  username == s.username && password == s.password

/-- The result of a connection after `upgrade_to_socks5`: the fields of
`Socks5Socket` readable through `target_addr()` and `auth()`. -/
structure Conn where
  target_addr : Option TargetAddr
  auth : AuthenticationMethod
  deriving DecidableEq

/-- ASCII string to byte list (used only for concrete examples whose
characters are all ASCII, where this agrees with UTF-8). -/
def strAscii (s : String) : List Nat :=
  s.data.map Char.toNat

/-! ## Wire reader -/

/-- Read one byte (`read_exact!` with a 1-byte buffer). -/
def readByte : List Nat → Option (Nat × List Nat)
  | b :: rest => some (b, rest)
  | [] => none

/-- Read two bytes (`read_exact!` with a 2-byte buffer). -/
def readByte2 : List Nat → Option (Nat × Nat × List Nat)
  | a :: b :: rest => some (a, b, rest)
  | _ => none

/-- Read four bytes (`read_exact!` with a 4-byte buffer). -/
def readByte4 : List Nat → Option (Nat × Nat × Nat × Nat × List Nat)
  | a :: b :: c :: d :: rest => some (a, b, c, d, rest)
  | _ => none

/-- Read exactly `n` bytes into a vector (`read_exact!` with
`vec![0u8; n]`): fails if the stream ends first. -/
def read_exact (n : Nat) (input : List Nat) : Option (List Nat × List Nat) :=
  if n ≤ input.length then some (input.take n, input.drop n) else none

/-- Is a byte a UTF-8 continuation byte. -/
def isCont (b : Nat) : Bool :=
  0x80 ≤ b && b ≤ 0xBF

/-- UTF-8 validity of a byte list, per RFC 3629 (the check performed by
Rust `String::from_utf8`). -/
def validUtf8 : List Nat → Bool
  | [] => true
  | b :: rest =>
    if b ≤ 0x7F then validUtf8 rest
    else if 0xC2 ≤ b && b ≤ 0xDF then
      match rest with
      | c1 :: r => isCont c1 && validUtf8 r
      | _ => false
    else if b = 0xE0 then
      match rest with
      | c1 :: c2 :: r => (0xA0 ≤ c1 && c1 ≤ 0xBF) && isCont c2 && validUtf8 r
      | _ => false
    else if (0xE1 ≤ b && b ≤ 0xEC) || b = 0xEE || b = 0xEF then
      match rest with
      | c1 :: c2 :: r => isCont c1 && isCont c2 && validUtf8 r
      | _ => false
    else if b = 0xED then
      match rest with
      | c1 :: c2 :: r => (0x80 ≤ c1 && c1 ≤ 0x9F) && isCont c2 && validUtf8 r
      | _ => false
    else if b = 0xF0 then
      match rest with
      | c1 :: c2 :: c3 :: r =>
        (0x90 ≤ c1 && c1 ≤ 0xBF) && isCont c2 && isCont c3 && validUtf8 r
      | _ => false
    else if 0xF1 ≤ b && b ≤ 0xF3 then
      match rest with
      | c1 :: c2 :: c3 :: r => isCont c1 && isCont c2 && isCont c3 && validUtf8 r
      | _ => false
    else if b = 0xF4 then
      match rest with
      | c1 :: c2 :: c3 :: r =>
        (0x80 ≤ c1 && c1 ≤ 0x8F) && isCont c2 && isCont c3 && validUtf8 r
      | _ => false
    else false

/-! ## Address codec -/

/-- Modelled from the spec: `read_address` lives in
`src/util/target_addr.rs`, which is not among the provided sources.  Per
spec section 4.1: ATYP `0x01` reads 4 IPv4 octets and 2 big-endian port
octets, ATYP `0x03` reads a length byte N (a domain of length 0 fails),
then N domain octets (non-UTF-8 bytes and names with a trailing NUL are
rejected, spec section 3) and the port, ATYP `0x04` reads 16 IPv6 octets
and the port; any other ATYP fails. -/
def read_address (input : List Nat) (address_type : Nat) :
    Option (TargetAddr × List Nat) :=
  if address_type = 1 then
    match readByte4 input with
    | some (a, b, c, d, rest) =>
      match readByte2 rest with
      | some (hi, lo, rest2) => some (.ip (.v4 a b c d) (hi * 256 + lo), rest2)
      | none => none
    | none => none
  else if address_type = 3 then
    match readByte input with
    | some (len, rest) =>
      if len = 0 then none
      else
        match read_exact len rest with
        | some (name, rest2) =>
          if validUtf8 name && name.getLast? != some 0 then
            match readByte2 rest2 with
            | some (hi, lo, rest3) => some (.domain name (hi * 256 + lo), rest3)
            | none => none
          else none
        | none => none
    | none => none
  else if address_type = 4 then
    match read_exact 16 input with
    | some (a16, rest) =>
      match readByte2 rest with
      | some (hi, lo, rest2) => some (.ip (.v6 a16) (hi * 256 + lo), rest2)
      | none => none
    | none => none
  else none

/-! ## The protocol engine (server.rs)

Each phase returns its result together with the unconsumed client input
and the list of write calls it performed. -/

/-- `Socks5Socket::get_methods` (server.rs lines 229 to 253): read
`[VER, NMETHODS]`, reject a wrong version, then read the method list. -/
def get_methods (input : List Nat) :
    Except SocksError (List Nat) × List Nat :=
  match readByte2 input with
  | none => (.error (.ioError .unexpectedEof), input)
  | some (version, methods_len, rest) =>
    if version ≠ SOCKS5_VERSION then (.error (.unsupportedSocksVersion version), rest)
    else
      match read_exact methods_len rest with
      | none => (.error (.ioError .unexpectedEof), rest)
      | some (methods, rest2) => (.ok methods, rest2)

/-- `Socks5Socket::can_accept_method` (server.rs lines 258 to 304): pick
the required method from the config, reply `[5, 0xFF]` and fail when the
client does not offer it, else reply `[5, method]`. -/
def can_accept_method (cfg : Config) (client_methods : List Nat) :
    Except SocksError Unit × List (List Nat) :=
  let method_supported :=
    if cfg.auth.isSome then SOCKS5_AUTH_METHOD_PASSWORD else SOCKS5_AUTH_METHOD_NONE
  if !(client_methods.contains method_supported) then
    (.error (.authMethodUnacceptable client_methods),
     [[SOCKS5_VERSION, SOCKS5_AUTH_METHOD_NOT_ACCEPTABLE]])
  else
    (.ok (), [[SOCKS5_VERSION, method_supported]])

/-- `Socks5Socket::authenticate` (server.rs lines 309 to 368): the
username/password sub-negotiation.  The version byte is read but never
inspected.  The UTF-8 decode failures follow the spec-modelled
`SocksError` conversion (see `SocksError`). -/
def authenticate (auth : Option (List Nat → List Nat → Bool))
    (input : List Nat) :
    Except SocksError (List Nat × List Nat) × List Nat × List (List Nat) :=
  match readByte2 input with
  | none => (.error (.ioError .unexpectedEof), input, [])
  | some (_version, user_len, rest) =>
    if user_len < 1 then
      (.error (.authenticationFailed
        ("Username malformed (" ++ toString user_len ++ " chars)")), rest, [])
    else
      match read_exact user_len rest with
      | none => (.error (.ioError .unexpectedEof), rest, [])
      | some (username, rest2) =>
        match readByte rest2 with
        | none => (.error (.ioError .unexpectedEof), rest2, [])
        | some (pass_len, rest3) =>
          if pass_len < 1 then
            (.error (.authenticationFailed
              ("Password malformed (" ++ toString pass_len ++ " chars)")), rest3, [])
          else
            match read_exact pass_len rest3 with
            | none => (.error (.ioError .unexpectedEof), rest3, [])
            | some (password, rest4) =>
              if !validUtf8 username then
                (.error (.authenticationFailed "Failed to convert username"), rest4, [])
              else if !validUtf8 password then
                (.error (.authenticationFailed "Failed to convert password"), rest4, [])
              else
                match auth with
                | none => (.error (.otherError "No auth module"), rest4, [])
                | some cb =>
                  if cb username password then
                    (.ok (username, password), rest4,
                     [[1, SOCKS5_REPLY_SUCCEEDED]])
                  else
                    (.error (.authenticationRejected "Authentication rejected"),
                     rest4, [[1, SOCKS5_AUTH_METHOD_NOT_ACCEPTABLE]])

/-- `Socks5Socket::reply` (server.rs lines 388 to 411): the ten-byte reply
frame with the fixed placeholder bind address `127.0.0.1:0`. -/
def reply_frame (e : ReplyError) : List Nat :=
  [SOCKS5_VERSION, e.as_u8, 0x00, 1, 127, 0, 0, 1, 0, 0]

/-- `Socks5Socket::read_command` (server.rs lines 418 to 460): read
`[VER, CMD, RSV, ATYP]`, reject a wrong version, reject commands other
than CONNECT, then parse the target address (any address parse error
becomes `AddressTypeNotSupported`). -/
def read_command (input : List Nat) :
    Except SocksError TargetAddr × List Nat :=
  match readByte4 input with
  | none => (.error (.ioError .unexpectedEof), input)
  | some (version, cmd, _rsv, address_type, rest) =>
    if version ≠ SOCKS5_VERSION then
      (.error (.unsupportedSocksVersion version), rest)
    else if cmd ≠ SOCKS5_CMD_TCP_CONNECT then
      (.error (.replyError .commandNotSupported), rest)
    else
      match read_address rest address_type with
      | none => (.error (.replyError .addressTypeNotSupported), rest)
      | some (target_addr, rest2) => (.ok target_addr, rest2)

/-- `Socks5Socket::resolve_dns` (server.rs lines 464 to 475): `take` the
stored target; a domain is resolved through the oracle (failure becomes
`HostUnreachable` per spec section 4.5, the resolver itself living in the
missing `target_addr.rs`), an IP is put back unchanged, an absent target
is left absent. -/
def resolve_dns (w : World) (target_addr : Option TargetAddr) :
    Except SocksError (Option TargetAddr) :=
  match target_addr with
  | none => .ok none
  | some t =>
    match t with
    | .domain name port =>
      match w.dns name port with
      | some sa => .ok (some (.ip sa.ip sa.port))
      | none => .error (.replyError .hostUnreachable)
    | .ip addr port => .ok (some (.ip addr port))

/-- `transfer` (server.rs lines 549 to 584): whichever copy direction the
select finishes with, and however it finished, the function logs and
returns `Ok(())`. -/
def transfer (sel : SelectOutcome) : Except SocksError Unit :=
  match sel with
  | .left (.done _) => .ok ()
  | .left (.ioError _) => .ok ()
  | .right (.done _) => .ok ()
  | .right (.ioError _) => .ok ()

/-- The ten-byte success reply written by `execute_command`
(server.rs lines 515 to 527). -/
def success_reply : List Nat :=
  [SOCKS5_VERSION, SOCKS5_REPLY_SUCCEEDED, 0x00, 1, 127, 0, 0, 1, 0, 0]

/-- `Socks5Socket::execute_command` (server.rs lines 479 to 536):
enumerate socket addresses for the target, connect under the configured
timeout mapping the outcome (lines 491 to 510), on success write the
placeholder success reply and run the relay. -/
def execute_command (cfg : Config) (w : World)
    (target_addr : Option TargetAddr) :
    Except SocksError Unit × List (List Nat) :=
  match target_addr with
  | none => (.error (.otherError "target_addr empty"), [])
  | some t =>
    match w.toSockAddrs t with
    | .error k => (.error (.ioError k), [])
    | .ok addrs =>
      match addrs.head? with
      | none => (.error (.otherError "unreachable"), [])
      | some addr =>
        match w.connect cfg.request_timeout addr with
        | .timeout => (.error (.replyError .ttlExpired), [])
        | .ioError .connectionRefused => (.error (.replyError .connectionRefused), [])
        | .ioError .connectionAborted => (.error (.replyError .connectionNotAllowed), [])
        | .ioError .connectionReset => (.error (.replyError .connectionNotAllowed), [])
        | .ioError .notConnected => (.error (.replyError .networkUnreachable), [])
        | .ioError k => (.error (.ioError k), [])
        | .success => (transfer w.transferSel, [success_reply])

/-- `Socks5Socket::request` (server.rs lines 371 to 385): read the
command, resolve DNS when `dns_resolve` is set, execute when
`execute_command` is set.  Returns (result, stored target, unconsumed
input, writes).  On a DNS failure the target stays taken (`None`),
matching the `take()` in `resolve_dns`. -/
def request (cfg : Config) (w : World) (input : List Nat) :
    Except SocksError Unit × Option TargetAddr × List Nat × List (List Nat) :=
  match read_command input with
  | (.error e, rest) => (.error e, none, rest, [])
  | (.ok ta, rest) =>
    match (if cfg.dns_resolve then resolve_dns w (some ta) else .ok (some ta)) with
    | .error e => (.error e, none, rest, [])
    | .ok t1 =>
      if cfg.execute_command then
        ((execute_command cfg w t1).1, t1, rest, (execute_command cfg w t1).2)
      else
        (.ok (), t1, rest, [])

/-- The handshake part of `upgrade_to_socks5` (server.rs lines 190 to
204): method negotiation, then the sub-negotiation when an authenticator
is configured, recording the credentials in the `auth` field. -/
def handshake (cfg : Config) (input : List Nat) :
    Except SocksError (AuthenticationMethod × List Nat) × List (List Nat) :=
  match get_methods input with
  | (.error e, _rest) => (.error e, [])
  | (.ok methods, rest) =>
    match can_accept_method cfg methods with
    | (.error e, ws) => (.error e, ws)
    | (.ok _, ws) =>
      if cfg.auth.isSome then
        match authenticate cfg.auth rest with
        | (.error e, _rest2, ws2) => (.error e, ws ++ ws2)
        | (.ok (u, p), rest2, ws2) => (.ok (.password u p, rest2), ws ++ ws2)
      else
        (.ok (.noneAuth, rest), ws)

/-- `Socks5Socket::upgrade_to_socks5` (server.rs lines 186 to 218): run
the handshake unless `skip_auth` is set, then the request; a request
error that is a `ReplyError` is written to the client with `reply` and
then propagated; any other error ends the connection silently. -/
def upgrade_to_socks5 (cfg : Config) (w : World) (input : List Nat) :
    Except SocksError Conn × List (List Nat) :=
  match (if cfg.skip_auth then
           ((.ok (.noneAuth, input), []) :
             Except SocksError (AuthenticationMethod × List Nat) × List (List Nat))
         else handshake cfg input) with
  | (.error e, ws) => (.error e, ws)
  | (.ok (am, rest), ws) =>
    match request cfg w rest with
    | (.ok _, t, _rest2, ws2) => (.ok ⟨t, am⟩, ws ++ ws2)
    | (.error (.replyError e), _t, _rest2, ws2) =>
      (.error (.replyError e), ws ++ ws2 ++ [reply_frame e])
    | (.error d, _t, _rest2, ws2) => (.error d, ws ++ ws2)

/-- A write call is a request-phase reply frame exactly when it is ten
bytes long (the handshake and sub-negotiation writes are two bytes). -/
def isReplyFrame (f : List Nat) : Bool :=
  f.length == 10

/-- Does `upgrade_to_socks5` end in success or in a wrapped
`ReplyError`. -/
def isOkOrReply : Except SocksError Conn → Bool
  | .ok _ => true
  | .error (.replyError _) => true
  | .error _ => false

/-! ## Helper lemmas -/

theorem transfer_eq_ok (sel : SelectOutcome) : transfer sel = .ok () := by
  cases sel with
  | left o => cases o <;> rfl
  | right o => cases o <;> rfl

theorem take_append_self (xs ys : List Nat) : (xs ++ ys).take xs.length = xs := by
  induction xs with
  | nil => simp
  | cons a t ih => simp [ih]

theorem drop_append_self (xs ys : List Nat) : (xs ++ ys).drop xs.length = ys := by
  induction xs with
  | nil => simp
  | cons a t ih => simp [ih]

theorem read_exact_append (xs ys : List Nat) :
    read_exact xs.length (xs ++ ys) = some (xs, ys) := by
  simp [read_exact, take_append_self, drop_append_self, Nat.le_add_right]

theorem read_exact_one (a : Nat) (xs : List Nat) :
    read_exact 1 (a :: xs) = some ([a], xs) := by
  simp [read_exact, Nat.succ_le_succ]

theorem read_exact_zero (xs : List Nat) :
    read_exact 0 xs = some ([], xs) := by
  simp [read_exact]

/-- Replace the local address the outbound socket got bound to, leaving
every other part of the world unchanged. -/
def withLocalAddr (w : World) (la : SocketAddr) : World :=
  ⟨w.dns, w.toSockAddrs, w.connect, w.transferSel, la⟩

/-- A trivially accepting authenticator, for concrete witnesses. -/
def cbTrue : Option (List Nat → List Nat → Bool) :=
  some fun _ _ => true

/-! ## Claim theorems -/

/-- Claim C2: with `skip_auth = false` and any client method list
(including the empty list read when NMETHODS is 0), the required method
is `0x02` when an authenticator is configured and `0x00` otherwise; a
list missing the required method gets `[0x05, 0xFF]` and
`AuthMethodUnacceptable`, any other list gets `[0x05, required]`. -/
theorem c2_method_selection (cfg : Config) (ms : List Nat) :
    (∀ rest, get_methods (5 :: 0 :: rest) = (.ok [], rest)) ∧
    (ms.contains (if cfg.auth.isSome then 2 else 0) = false →
      can_accept_method cfg ms
        = (.error (.authMethodUnacceptable ms), [[5, 0xFF]])) ∧
    (ms.contains (if cfg.auth.isSome then 2 else 0) = true →
      can_accept_method cfg ms
        = (.ok (), [[5, if cfg.auth.isSome then 2 else 0]])) := by
  refine ⟨?_, ?_, ?_⟩
  · intro rest
    simp [get_methods, readByte2, read_exact_zero, SOCKS5_VERSION]
  · intro h
    cases hA : cfg.auth.isSome <;>
      simp_all [can_accept_method, SOCKS5_AUTH_METHOD_PASSWORD,
        SOCKS5_AUTH_METHOD_NONE, SOCKS5_AUTH_METHOD_NOT_ACCEPTABLE,
        SOCKS5_VERSION]
  · intro h
    cases hA : cfg.auth.isSome <;>
      simp_all [can_accept_method, SOCKS5_AUTH_METHOD_PASSWORD,
        SOCKS5_AUTH_METHOD_NONE, SOCKS5_AUTH_METHOD_NOT_ACCEPTABLE,
        SOCKS5_VERSION]

/-- Witness for C2 at the empty method list with no authenticator. -/
theorem c2_method_selection_witness :
    ([] : List Nat).contains (if (Option.none : Option (List Nat → List Nat → Bool)).isSome then 2 else 0) = false ∧
    can_accept_method ⟨10, false, true, true, Option.none⟩ []
      = (.error (.authMethodUnacceptable []), [[5, 0xFF]]) :=
  ⟨by decide, (c2_method_selection ⟨10, false, true, true, Option.none⟩ []).2.1 (by decide)⟩

/-- Claim C4: the sub-negotiation fails with `AuthenticationFailed` when
ULEN is 0, when PLEN is 0, or when the username or password bytes are not
valid UTF-8, and in each case writes no status byte.  The UTF-8 case
relies on the spec-modelled `SocksError` conversion (see `SocksError`). -/
theorem c4_auth_failures (cb : Option (List Nat → List Nat → Bool)) (ver : Nat) :
    (∀ rest, ∃ m, authenticate cb (ver :: 0 :: rest)
        = (.error (.authenticationFailed m), rest, [])) ∧
    (∀ user rest, user ≠ [] →
      ∃ m, authenticate cb (ver :: user.length :: (user ++ 0 :: rest))
        = (.error (.authenticationFailed m), rest, [])) ∧
    (∀ user pass rest, user ≠ [] → pass ≠ [] → validUtf8 user = false →
      ∃ m, authenticate cb (ver :: user.length :: (user ++ pass.length :: (pass ++ rest)))
        = (.error (.authenticationFailed m), rest, [])) ∧
    (∀ user pass rest, user ≠ [] → pass ≠ [] →
        validUtf8 user = true → validUtf8 pass = false →
      ∃ m, authenticate cb (ver :: user.length :: (user ++ pass.length :: (pass ++ rest)))
        = (.error (.authenticationFailed m), rest, [])) := by
  refine ⟨?_, ?_, ?_, ?_⟩
  · intro rest
    exact ⟨"Username malformed (" ++ toString (0 : Nat) ++ " chars)",
      by simp [authenticate, readByte2]⟩
  · intro user rest hu
    exact ⟨"Password malformed (" ++ toString (0 : Nat) ++ " chars)",
      by simp [authenticate, readByte2, readByte, read_exact_append,
        Nat.lt_one_iff, List.length_eq_zero, hu]⟩
  · intro user pass rest hu hp hvu
    exact ⟨"Failed to convert username",
      by simp [authenticate, readByte2, readByte, read_exact_append,
        Nat.lt_one_iff, List.length_eq_zero, hu, hp, hvu]⟩
  · intro user pass rest hu hp hvu hvp
    exact ⟨"Failed to convert password",
      by simp [authenticate, readByte2, readByte, read_exact_append,
        Nat.lt_one_iff, List.length_eq_zero, hu, hp, hvu, hvp]⟩

/-- Witness for C4: a non-UTF-8 username byte `0xFF`. -/
theorem c4_auth_failures_witness :
    ([0xFF] : List Nat) ≠ [] ∧ ([65] : List Nat) ≠ [] ∧ validUtf8 [0xFF] = false ∧
    ∃ m, authenticate cbTrue (1 :: [0xFF].length :: ([0xFF] ++ [65].length :: ([65] ++ [])))
      = (.error (.authenticationFailed m), [], []) :=
  ⟨by decide, by decide, by decide,
   (c4_auth_failures cbTrue 1).2.2.1 [0xFF] [65] [] (by decide) (by decide) (by decide)⟩

/-- Claim C5: with a configured `SimpleUserPassword` and a well-formed
UTF-8 credential message, the server writes `[0x01, 0x00]` and returns the
credentials iff they are byte-equal to the configured pair, and otherwise
writes `[0x01, 0xFF]` and fails `AuthenticationRejected`. -/
theorem c5_simple_user_password (s : SimpleUserPassword) (ver : Nat)
    (user pass rest : List Nat)
    (hu : user ≠ []) (hp : pass ≠ [])
    (huv : validUtf8 user = true) (hpv : validUtf8 pass = true) :
    (user = s.username ∧ pass = s.password →
      authenticate (some s.authenticate)
          (ver :: user.length :: (user ++ pass.length :: (pass ++ rest)))
        = (.ok (user, pass), rest, [[1, 0]])) ∧
    (¬(user = s.username ∧ pass = s.password) →
      authenticate (some s.authenticate)
          (ver :: user.length :: (user ++ pass.length :: (pass ++ rest)))
        = (.error (.authenticationRejected "Authentication rejected"),
           rest, [[1, 0xFF]])) := by
  refine ⟨fun h => ?_, fun h => ?_⟩
  · obtain ⟨h1, h2⟩ := h
    subst h1
    subst h2
    simp [authenticate, readByte2, readByte, read_exact_append,
      SimpleUserPassword.authenticate, Nat.lt_one_iff, List.length_eq_zero,
      hu, hp, huv, hpv, SOCKS5_REPLY_SUCCEEDED]
  · have hb : (user == s.username && pass == s.password) = false := by
      cases h' : (user == s.username && pass == s.password) with
      | false => rfl
      | true => exact absurd (by simpa [Bool.and_eq_true, beq_iff_eq] using h') h
    simp [authenticate, readByte2, readByte, read_exact_append,
      SimpleUserPassword.authenticate, Nat.lt_one_iff, List.length_eq_zero,
      hu, hp, huv, hpv, hb, SOCKS5_AUTH_METHOD_NOT_ACCEPTABLE]

/-- The configured credential pair used by the C5 witness. -/
def supT : SimpleUserPassword :=
  ⟨strAscii "user", strAscii "pass"⟩

/-- Witness for C5 at byte-equal credentials. -/
theorem c5_simple_user_password_witness :
    strAscii "user" ≠ ([] : List Nat) ∧ validUtf8 (strAscii "user") = true ∧
    authenticate (some supT.authenticate)
        (1 :: (strAscii "user").length ::
          (strAscii "user" ++ (strAscii "pass").length :: (strAscii "pass" ++ [])))
      = (.ok (strAscii "user", strAscii "pass"), [], [[1, 0]]) :=
  ⟨by decide, by decide,
   (c5_simple_user_password supT 1 (strAscii "user") (strAscii "pass") []
     (by decide) (by decide) (by decide) (by decide)).1 ⟨rfl, rfl⟩⟩

/-- Claim C6: a successful CONNECT writes exactly the ten bytes
`[5, 0, 0, 1, 127, 0, 0, 1, 0, 0]` regardless of the local address of the
outbound socket, and failure replies embed the same placeholder
address. -/
theorem c6_placeholder_reply (cfg : Config) (w : World) (t : TargetAddr)
    (addrs : List SocketAddr) (a : SocketAddr)
    (h1 : w.toSockAddrs t = .ok addrs) (h2 : addrs.head? = some a)
    (h3 : w.connect cfg.request_timeout a = .success) :
    (execute_command cfg w (some t)).2 = [[5, 0, 0, 1, 127, 0, 0, 1, 0, 0]] ∧
    (∀ la, execute_command cfg (withLocalAddr w la) (some t)
        = execute_command cfg w (some t)) ∧
    (∀ e, reply_frame e = [5, e.as_u8, 0, 1, 127, 0, 0, 1, 0, 0]) := by
  refine ⟨?_, ?_, ?_⟩
  · simp [execute_command, h1, h2, h3, success_reply,
      SOCKS5_VERSION, SOCKS5_REPLY_SUCCEEDED]
  · intro la
    rfl
  · intro e
    rfl

/-- The oracle used by concrete success-path witnesses: one candidate
address, a connect that succeeds, a relay whose client side finishes
first. -/
def wOK : World :=
  ⟨fun _ _ => Option.none, fun _ => .ok [⟨.v4 127 0 0 1, 8080⟩],
   fun _ _ => .success, .left (.done 0), ⟨.v4 0 0 0 0, 0⟩⟩

/-- Witness for C6 on a loopback CONNECT. -/
theorem c6_placeholder_reply_witness :
    wOK.toSockAddrs (.ip (.v4 127 0 0 1) 8080) = .ok [⟨.v4 127 0 0 1, 8080⟩] ∧
    (execute_command ⟨10, false, true, true, Option.none⟩ wOK
        (some (.ip (.v4 127 0 0 1) 8080))).2
      = [[5, 0, 0, 1, 127, 0, 0, 1, 0, 0]] :=
  ⟨rfl,
   (c6_placeholder_reply ⟨10, false, true, true, Option.none⟩ wOK
     (.ip (.v4 127 0 0 1) 8080) [⟨.v4 127 0 0 1, 8080⟩] ⟨.v4 127 0 0 1, 8080⟩
     rfl rfl rfl).1⟩

/-- Claim C8: the relay returns `Ok` for every select outcome: whichever
direction finishes first, by EOF or by an I/O error. -/
theorem c8_transfer_always_ok (sel : SelectOutcome) :
    transfer sel = .ok () :=
  transfer_eq_ok sel

/-- Claim C9: `resolve_dns` is an identity on an `Ip` target and a no-op
on an absent target, returning `Ok` in both cases, for every DNS
oracle. -/
theorem c9_resolve_dns_identity (w : World) (addr : IpAddr) (port : Nat) :
    resolve_dns w (some (.ip addr port)) = .ok (some (.ip addr port)) ∧
    resolve_dns w none = .ok none :=
  ⟨rfl, rfl⟩

/-- Claim C10: the sub-negotiation never inspects the version byte: two
credential messages differing only in VER produce the same result, the
same writes, and (whenever anything at all follows the version byte) the
very same behaviour; no value of VER causes a failure by itself. -/
theorem c10_version_byte_ignored (cb : Option (List Nat → List Nat → Bool))
    (v1 v2 : Nat) (rest : List Nat) :
    ((authenticate cb (v1 :: rest)).1 = (authenticate cb (v2 :: rest)).1) ∧
    ((authenticate cb (v1 :: rest)).2.2 = (authenticate cb (v2 :: rest)).2.2) ∧
    (rest ≠ [] → authenticate cb (v1 :: rest) = authenticate cb (v2 :: rest)) := by
  cases rest with
  | nil => exact ⟨rfl, rfl, fun h => absurd rfl h⟩
  | cons u r => exact ⟨rfl, rfl, fun _ => rfl⟩

/-- Witness for C10 at VER 0 versus VER 7. -/
theorem c10_version_byte_ignored_witness :
    ([1, 65, 1, 66] : List Nat) ≠ [] ∧
    authenticate cbTrue (0 :: [1, 65, 1, 66])
      = authenticate cbTrue (7 :: [1, 65, 1, 66]) :=
  ⟨by decide,
   (c10_version_byte_ignored cbTrue 0 7 [1, 65, 1, 66]).2.2 (by decide)⟩

/-- The default configuration (server.rs lines 34 to 44). -/
def cfgDefault : Config :=
  ⟨10, false, true, true, Option.none⟩

/-- A world whose outbound connect fails with `PermissionDenied`, one of
the error kinds `execute_command` has no explicit arm for. -/
def wPermDenied : World :=
  ⟨fun _ _ => Option.none, fun _ => .ok [⟨.v4 127 0 0 1, 8080⟩],
   fun _ _ => .ioError .permissionDenied, .left (.done 0), ⟨.v4 0 0 0 0, 0⟩⟩

/-- Claim C3 (amended): the connect outcome maps to Succeeded on success,
TtlExpired on timeout, ConnectionRefused on ECONNREFUSED,
ConnectionNotAllowed on ECONNABORTED or ECONNRESET, NetworkUnreachable on
ENOTCONN; every other I/O error is returned as the non-reply error
`SocksError.ioError` (dropping the connection without a reply), not as
GeneralFailure. -/
theorem c3_connect_outcome_mapping (cfg : Config) (w : World) (t : TargetAddr)
    (addrs : List SocketAddr) (a : SocketAddr)
    (h1 : w.toSockAddrs t = .ok addrs) (h2 : addrs.head? = some a) :
    (w.connect cfg.request_timeout a = .success →
      execute_command cfg w (some t) = (.ok (), [success_reply])) ∧
    (w.connect cfg.request_timeout a = .timeout →
      execute_command cfg w (some t) = (.error (.replyError .ttlExpired), [])) ∧
    (w.connect cfg.request_timeout a = .ioError .connectionRefused →
      execute_command cfg w (some t) = (.error (.replyError .connectionRefused), [])) ∧
    (w.connect cfg.request_timeout a = .ioError .connectionAborted →
      execute_command cfg w (some t) = (.error (.replyError .connectionNotAllowed), [])) ∧
    (w.connect cfg.request_timeout a = .ioError .connectionReset →
      execute_command cfg w (some t) = (.error (.replyError .connectionNotAllowed), [])) ∧
    (w.connect cfg.request_timeout a = .ioError .notConnected →
      execute_command cfg w (some t) = (.error (.replyError .networkUnreachable), [])) ∧
    (∀ k, k ≠ .connectionRefused → k ≠ .connectionAborted → k ≠ .connectionReset →
      k ≠ .notConnected → w.connect cfg.request_timeout a = .ioError k →
      execute_command cfg w (some t) = (.error (.ioError k), [])) := by
  refine ⟨fun h3 => ?_, fun h3 => ?_, fun h3 => ?_, fun h3 => ?_, fun h3 => ?_,
    fun h3 => ?_, fun k k1 k2 k3 k4 h3 => ?_⟩
  all_goals simp [execute_command, h1, h2, h3, transfer_eq_ok]

/-- A world whose outbound connect is refused. -/
def wRefused : World :=
  ⟨fun _ _ => Option.none, fun _ => .ok [⟨.v4 127 0 0 1, 8080⟩],
   fun _ _ => .ioError .connectionRefused, .left (.done 0), ⟨.v4 0 0 0 0, 0⟩⟩

/-- Witness for C3 (amended) at a refused loopback connect. -/
theorem c3_connect_outcome_mapping_witness :
    wRefused.toSockAddrs (.ip (.v4 127 0 0 1) 8080) = .ok [⟨.v4 127 0 0 1, 8080⟩] ∧
    execute_command cfgDefault wRefused (some (.ip (.v4 127 0 0 1) 8080))
      = (.error (.replyError .connectionRefused), []) :=
  ⟨rfl,
   (c3_connect_outcome_mapping cfgDefault wRefused (.ip (.v4 127 0 0 1) 8080)
     [⟨.v4 127 0 0 1, 8080⟩] ⟨.v4 127 0 0 1, 8080⟩ rfl rfl).2.2.1 rfl⟩

/-- Counterexample to C3 as stated: a `PermissionDenied` connect error (an
"other I/O error") is returned as `SocksError.ioError`, not mapped to the
`GeneralFailure` reply code, and over a whole connection no reply frame is
written at all: only the method-selection bytes `[5, 0]` reach the
client. -/
theorem c3_counterexample :
    execute_command cfgDefault wPermDenied (some (.ip (.v4 127 0 0 1) 8080))
      = (.error (.ioError .permissionDenied), []) ∧
    SocksError.ioError .permissionDenied ≠ SocksError.replyError .generalFailure ∧
    upgrade_to_socks5 cfgDefault wPermDenied
        ([5, 1, 0] ++ [5, 1, 0, 1, 127, 0, 0, 1, 31, 144])
      = (.error (.ioError .permissionDenied), [[5, 0]]) :=
  ⟨rfl, by decide, rfl⟩

/-- The embedder configuration of scenario 6: no authenticator,
`dns_resolve` and `execute_command` both disabled. -/
def cfgEmbed : Config :=
  ⟨10, false, false, false, Option.none⟩

/-- A world in which every external interaction would fail; scenario 6
must never consult it. -/
def wIdle : World :=
  ⟨fun _ _ => Option.none, fun _ => .ok [], fun _ _ => .timeout,
   .left (.done 0), ⟨.v4 0 0 0 0, 0⟩⟩

/-- The scenario-6 bytes exactly as the spec lists them: handshake
`05 01 00` then request `05 01 00 03 09 65 78 61 6D 70 6C 65 2E 63 6F 6D
00 50`; note the length byte `09` against the eleven domain octets. -/
def scenario6_input : List Nat :=
  [5, 1, 0] ++ [5, 1, 0, 3, 9] ++ strAscii "example.com" ++ [0, 80]

/-- Counterexample to C7 as stated: on the literal scenario-6 bytes the
length byte `09` makes the parser take only nine domain octets, so the
stored target is `Domain("example.c", 28525)` (the next two octets
`6F 6D` become the port), not `Domain("example.com", 80)`. -/
theorem c7_counterexample :
    (upgrade_to_socks5 cfgEmbed wIdle scenario6_input).1
      = .ok ⟨some (.domain (strAscii "example.c") 28525), .noneAuth⟩ ∧
    TargetAddr.domain (strAscii "example.c") 28525
      ≠ TargetAddr.domain (strAscii "example.com") 80 :=
  ⟨rfl, by decide⟩

/-- Claim C7 (amended): with `execute_command = false` and
`dns_resolve = false`, after a successful no-auth handshake and a
well-formed domain request (length byte equal to the domain length), the
server consults no resolver and no connector (the world is arbitrary),
writes nothing beyond the method reply `[5, 0]`, and returns the
connection with exactly the parsed target — `Domain("example.com", 80)`
once the scenario's length byte is corrected to `0x0B`. -/
theorem c7_return_parsed_target (cfg : Config) (w : World)
    (hskip : cfg.skip_auth = false) (hauth : cfg.auth = Option.none)
    (hdns : cfg.dns_resolve = false) (hex : cfg.execute_command = false)
    (name : List Nat) (hi lo : Nat) (rest : List Nat)
    (h1 : name ≠ []) (h2 : validUtf8 name = true) (h3 : name.getLast? ≠ some 0) :
    upgrade_to_socks5 cfg w
        (5 :: 1 :: 0 :: (5 :: 1 :: 0 :: 3 :: name.length :: (name ++ hi :: lo :: rest)))
      = (.ok ⟨some (.domain name (hi * 256 + lo)), .noneAuth⟩, [[5, 0]]) := by
  simp [upgrade_to_socks5, handshake, get_methods, can_accept_method, request,
    read_command, read_address, readByte, readByte2, readByte4, read_exact_one,
    read_exact_append, resolve_dns, hskip, hauth, hdns, hex, h1, h2, h3,
    bne_iff_ne, List.length_eq_zero, SOCKS5_VERSION, SOCKS5_CMD_TCP_CONNECT,
    SOCKS5_AUTH_METHOD_NONE, SOCKS5_AUTH_METHOD_PASSWORD]

/-- Witness for C7 (amended): the corrected scenario-6 bytes. -/
theorem c7_return_parsed_target_witness :
    validUtf8 (strAscii "example.com") = true ∧
    upgrade_to_socks5 cfgEmbed wIdle
        (5 :: 1 :: 0 :: (5 :: 1 :: 0 :: 3 :: (strAscii "example.com").length ::
          (strAscii "example.com" ++ 0 :: 80 :: [])))
      = (.ok ⟨some (.domain (strAscii "example.com") (0 * 256 + 80)), .noneAuth⟩,
         [[5, 0]]) :=
  ⟨by decide,
   c7_return_parsed_target cfgEmbed wIdle rfl rfl rfl rfl
     (strAscii "example.com") 0 80 [] (by decide) (by decide) (by decide)⟩

/-! ## Write-shape and error-shape lemmas for the whole-connection claim -/

theorem can_accept_method_writes (cfg : Config) (ms : List Nat) :
    ((can_accept_method cfg ms).2).filter isReplyFrame = [] := by
  by_cases h : (if cfg.auth.isSome then SOCKS5_AUTH_METHOD_PASSWORD
      else SOCKS5_AUTH_METHOD_NONE) ∈ ms <;>
    simp [can_accept_method, h, isReplyFrame]

theorem authenticate_writes (cb : Option (List Nat → List Nat → Bool))
    (input : List Nat) :
    ((authenticate cb input).2.2).filter isReplyFrame = [] := by
  unfold authenticate
  (repeat' split) <;> simp [isReplyFrame]

theorem get_methods_no_reply_error (input : List Nat) (r : ReplyError) :
    (get_methods input).1 ≠ .error (.replyError r) := by
  unfold get_methods
  (repeat' split) <;> simp

theorem can_accept_method_no_reply_error (cfg : Config) (ms : List Nat)
    (r : ReplyError) :
    (can_accept_method cfg ms).1 ≠ .error (.replyError r) := by
  by_cases h : (if cfg.auth.isSome then SOCKS5_AUTH_METHOD_PASSWORD
      else SOCKS5_AUTH_METHOD_NONE) ∈ ms <;>
    simp [can_accept_method, h]

theorem authenticate_no_reply_error (cb : Option (List Nat → List Nat → Bool))
    (input : List Nat) (r : ReplyError) :
    (authenticate cb input).1 ≠ .error (.replyError r) := by
  unfold authenticate
  (repeat' split) <;> simp

theorem handshake_writes (cfg : Config) (input : List Nat) :
    ((handshake cfg input).2).filter isReplyFrame = [] := by
  unfold handshake
  rcases hgm : get_methods input with ⟨r, rest⟩
  cases r with
  | error e => simp
  | ok methods =>
    dsimp only
    rcases hca : can_accept_method cfg methods with ⟨r2, ws⟩
    have hws : ws.filter isReplyFrame = [] := by
      have h := can_accept_method_writes cfg methods
      rw [hca] at h
      exact h
    cases r2 with
    | error e => simpa using hws
    | ok u =>
      cases hA : cfg.auth.isSome with
      | false => simpa [hA] using hws
      | true =>
        rcases hau : authenticate cfg.auth rest with ⟨r3, rest2, ws2⟩
        have hws2 : ws2.filter isReplyFrame = [] := by
          have h := authenticate_writes cfg.auth rest
          rw [hau] at h
          exact h
        cases r3 with
        | error e => simp [hA, hau, List.filter_append, hws, hws2]
        | ok up =>
          rcases up with ⟨u2, p2⟩
          simp [hA, hau, List.filter_append, hws, hws2]

theorem handshake_no_reply_error (cfg : Config) (input : List Nat)
    (r : ReplyError) :
    (handshake cfg input).1 ≠ .error (.replyError r) := by
  unfold handshake
  rcases hgm : get_methods input with ⟨r1, rest⟩
  cases r1 with
  | error e =>
    have h := get_methods_no_reply_error input r
    rw [hgm] at h
    simpa using h
  | ok methods =>
    dsimp only
    rcases hca : can_accept_method cfg methods with ⟨r2, ws⟩
    cases r2 with
    | error e =>
      have h := can_accept_method_no_reply_error cfg methods r
      rw [hca] at h
      simpa using h
    | ok u =>
      cases hA : cfg.auth.isSome with
      | false => simp [hA]
      | true =>
        rcases hau : authenticate cfg.auth rest with ⟨r3, rest2, ws2⟩
        cases r3 with
        | error e =>
          have h := authenticate_no_reply_error cfg.auth rest r
          rw [hau] at h
          simpa [hA, hau] using h
        | ok up =>
          rcases up with ⟨u2, p2⟩
          simp [hA, hau]

theorem execute_command_cases (cfg : Config) (w : World)
    (t : Option TargetAddr) :
    execute_command cfg w t = (.ok (), [success_reply]) ∨
    ∃ e, execute_command cfg w t = (.error e, []) := by
  unfold execute_command
  (repeat' split) <;> simp [transfer_eq_ok]

theorem request_cases (cfg : Config) (w : World) (input : List Nat)
    (hex : cfg.execute_command = true) :
    ((request cfg w input).1 = .ok () ∧
        (request cfg w input).2.2.2 = [success_reply]) ∨
    (∃ e, (request cfg w input).1 = .error e ∧
        (request cfg w input).2.2.2 = []) := by
  unfold request
  rcases hrc : read_command input with ⟨r, rest⟩
  cases r with
  | error e => exact Or.inr ⟨e, by simp [hrc], by simp [hrc]⟩
  | ok ta =>
    rcases hdr : (if cfg.dns_resolve then resolve_dns w (some ta)
        else .ok (some ta)) with e | t1
    · exact Or.inr ⟨e, by simp [hrc, hdr], by simp [hrc, hdr]⟩
    · rcases execute_command_cases cfg w t1 with hec | ⟨e, hec⟩
      · exact Or.inl ⟨by simp [hrc, hdr, hex, hec], by simp [hrc, hdr, hex, hec]⟩
      · exact Or.inr ⟨e, by simp [hrc, hdr, hex, hec], by simp [hrc, hdr, hex, hec]⟩

/-- Whole-connection case analysis (with `skip_auth = false` and
`execute_command = true`): either the connection ends in a non-reply error
with no reply frame written, or it succeeds having written exactly the one
success reply, or it ends in a `ReplyError` having written exactly the one
corresponding reply frame. -/
theorem upgrade_cases (cfg : Config) (w : World) (input : List Nat)
    (hskip : cfg.skip_auth = false) (hex : cfg.execute_command = true) :
    (∃ e, (upgrade_to_socks5 cfg w input).1 = .error e ∧
       (∀ r, e ≠ .replyError r) ∧
       ((upgrade_to_socks5 cfg w input).2).filter isReplyFrame = []) ∨
    (∃ conn, (upgrade_to_socks5 cfg w input).1 = .ok conn ∧
       ((upgrade_to_socks5 cfg w input).2).filter isReplyFrame = [success_reply]) ∨
    (∃ e, (upgrade_to_socks5 cfg w input).1 = .error (.replyError e) ∧
       ((upgrade_to_socks5 cfg w input).2).filter isReplyFrame = [reply_frame e]) := by
  have hIf : (if cfg.skip_auth then
        ((.ok (.noneAuth, input), []) :
          Except SocksError (AuthenticationMethod × List Nat) × List (List Nat))
      else handshake cfg input) = handshake cfg input := by
    rw [hskip]
    simp
  unfold upgrade_to_socks5
  rw [hIf]
  rcases hhs : handshake cfg input with ⟨r, ws⟩
  have hws : ws.filter isReplyFrame = [] := by
    have h := handshake_writes cfg input
    rw [hhs] at h
    exact h
  cases r with
  | error e =>
    refine Or.inl ⟨e, by simp, ?_, by simpa using hws⟩
    intro r' hcontra
    have h := handshake_no_reply_error cfg input r'
    rw [hhs] at h
    exact h (by simp [hcontra])
  | ok p =>
    rcases p with ⟨am, rest⟩
    dsimp only
    rcases hreq : request cfg w rest with ⟨r2, t2, rest2, ws2⟩
    rcases request_cases cfg w rest hex with ⟨hok, hw⟩ | ⟨e, herr, hw⟩
    · simp only [hreq] at hok hw
      subst hok
      subst hw
      exact Or.inr (Or.inl ⟨⟨t2, am⟩, by simp,
        by simp [List.filter_append, hws, success_reply, isReplyFrame,
          SOCKS5_VERSION, SOCKS5_REPLY_SUCCEEDED]⟩)
    · simp only [hreq] at herr hw
      subst herr
      subst hw
      cases e with
      | replyError e2 =>
        exact Or.inr (Or.inr ⟨e2, by simp,
          by simp [List.filter_append, hws, reply_frame, isReplyFrame,
            SOCKS5_VERSION]⟩)
      | unsupportedSocksVersion v =>
        exact Or.inl ⟨.unsupportedSocksVersion v, by simp, fun r' => by simp,
          by simpa using hws⟩
      | authMethodUnacceptable ms =>
        exact Or.inl ⟨.authMethodUnacceptable ms, by simp, fun r' => by simp,
          by simpa using hws⟩
      | authenticationFailed m =>
        exact Or.inl ⟨.authenticationFailed m, by simp, fun r' => by simp,
          by simpa using hws⟩
      | authenticationRejected m =>
        exact Or.inl ⟨.authenticationRejected m, by simp, fun r' => by simp,
          by simpa using hws⟩
      | ioError k =>
        exact Or.inl ⟨.ioError k, by simp, fun r' => by simp,
          by simpa using hws⟩
      | otherError m =>
        exact Or.inl ⟨.otherError m, by simp, fun r' => by simp,
          by simpa using hws⟩

/-- Counterexample to C1 as stated: with `skip_auth = false` but
`execute_command = false` the request phase is fully parsed (the
connection is returned `Ok` with the parsed target) yet the server writes
no reply frame at all, so "exactly one reply per fully parsed request"
fails.  The input is the corrected scenario-6 byte stream. -/
theorem c1_counterexample :
    (upgrade_to_socks5 cfgEmbed wIdle
        ([5, 1, 0] ++ [5, 1, 0, 3, 11] ++ strAscii "example.com" ++ [0, 80])).1
      = .ok ⟨some (.domain (strAscii "example.com") 80), .noneAuth⟩ ∧
    ((upgrade_to_socks5 cfgEmbed wIdle
        ([5, 1, 0] ++ [5, 1, 0, 3, 11] ++ strAscii "example.com" ++ [0, 80])).2).filter
        isReplyFrame
      = [] :=
  ⟨rfl, rfl⟩

/-- Claim C1 (amended): with `skip_auth = false` and
`execute_command = true`, whenever the connection either completes
successfully or fails with an error classifiable as a SOCKS reply code,
the server has written exactly one reply frame, whose first byte is
`0x05` and whose third byte is `0x00`; a connection with
`execute_command = false`, or one failing with a non-classifiable error,
writes no reply frame at all. -/
theorem c1_reply_exactly_once (cfg : Config) (w : World) (input : List Nat)
    (hskip : cfg.skip_auth = false) (hex : cfg.execute_command = true)
    (hres : isOkOrReply (upgrade_to_socks5 cfg w input).1 = true) :
    ∃ c, ((upgrade_to_socks5 cfg w input).2).filter isReplyFrame
      = [[5, c, 0, 1, 127, 0, 0, 1, 0, 0]] := by
  rcases upgrade_cases cfg w input hskip hex with
    ⟨e, h1, hnr, _⟩ | ⟨conn, _, h2⟩ | ⟨e, _, h3⟩
  · rw [h1] at hres
    cases e with
    | replyError r => exact absurd rfl (hnr r)
    | unsupportedSocksVersion v => simp [isOkOrReply] at hres
    | authMethodUnacceptable ms => simp [isOkOrReply] at hres
    | authenticationFailed m => simp [isOkOrReply] at hres
    | authenticationRejected m => simp [isOkOrReply] at hres
    | ioError k => simp [isOkOrReply] at hres
    | otherError m => simp [isOkOrReply] at hres
  · exact ⟨0, by simpa [success_reply, SOCKS5_VERSION, SOCKS5_REPLY_SUCCEEDED] using h2⟩
  · exact ⟨e.as_u8, by simpa [reply_frame, SOCKS5_VERSION] using h3⟩

/-- Witness for C1 (amended): a complete no-auth CONNECT to loopback that
succeeds; the one reply frame is the success reply. -/
theorem c1_reply_exactly_once_witness :
    cfgDefault.skip_auth = false ∧ cfgDefault.execute_command = true ∧
    isOkOrReply (upgrade_to_socks5 cfgDefault wOK
        ([5, 1, 0] ++ [5, 1, 0, 1, 127, 0, 0, 1, 31, 144])).1 = true ∧
    ∃ c, ((upgrade_to_socks5 cfgDefault wOK
        ([5, 1, 0] ++ [5, 1, 0, 1, 127, 0, 0, 1, 31, 144])).2).filter isReplyFrame
      = [[5, c, 0, 1, 127, 0, 0, 1, 0, 0]] :=
  ⟨rfl, rfl, rfl,
   c1_reply_exactly_once cfgDefault wOK
     ([5, 1, 0] ++ [5, 1, 0, 1, 127, 0, 0, 1, 31, 144]) rfl rfl rfl⟩

end FastSocks
